import Mathlib

/-!
Shallow embedding of the Webchat-AI logistics backend core.

This file embeds the shipment-reconciliation core of
`src/logistics-ai-backend/app.py` (the ShipEngine tracking client, the manual
refresh endpoint `refresh_shipments`, and the background monitor loop inside
`start_shipment_monitoring`) and proves the testable properties the spec states about it.

Modelling conventions:
* Python `str` is Lean `String`; Python string helpers (`lower`, `upper`,
  `strip`, `isdigit`, `startswith`) are embedded below on `String.data`
  character lists (the tracking data in play is ASCII, where the Lean
  functions `Char.toLower`, `Char.toUpper` and `Char.isDigit` agree with Python).
* Nullable database columns are `Option`; `datetime` values are abstract
  timestamps (`Nat`); `datetime.fromisoformat` is an abstract parameter
  `parse : String → Option Nat` (`none` models the `except` branch around it).
* The network is an oracle `http : String → Option String → HttpOutcome`
  mapping (tracking number, optional carrier code) to a request outcome.
* The SQLAlchemy session with its atomic `commit`/`rollback` is modelled by a
  `commitOk` flag on the refresh endpoint: pending writes land exactly when the
  commit succeeds, and `rollback` restores the pre-batch store.
-/

namespace WebchatAI

/-- Python `s.lower()` (ASCII). -/
def pyLower (s : String) : String := ⟨s.data.map Char.toLower⟩

/-- Python `s.upper()` (ASCII). -/
def pyUpper (s : String) : String := ⟨s.data.map Char.toUpper⟩

/-- Python `s.strip()`: drop whitespace from both ends. -/
def pyStrip (s : String) : String :=
  ⟨((s.data.dropWhile Char.isWhitespace).reverse.dropWhile Char.isWhitespace).reverse⟩

/-- Python `s.isdigit()` for ASCII: nonempty and all digits. -/
def pyIsDigit (s : String) : Bool := !s.data.isEmpty && s.data.all Char.isDigit

/-- Python `s.startswith(p)`. -/
def pyStartsWith (s p : String) : Bool := p.data.isPrefixOf s.data

/-- Python `s.strip(", ")`: drop commas and spaces from both ends
(used by `_parse_shipengine_response` when assembling place strings). -/
def pyStripCommaSpace (s : String) : String :=
  let junk : Char → Bool := fun c => c == ',' || c == ' '
  ⟨((s.data.dropWhile junk).reverse.dropWhile junk).reverse⟩

/-- Python `s.replace("Z", "+00:00")` applied before `datetime.fromisoformat`. -/
def replaceZ (s : String) : String :=
  ⟨s.data.flatMap fun c => if c == 'Z' then ['+', '0', '0', ':', '0', '0'] else [c]⟩

/-- The `Shipment` database model (`app.py` lines 65-76): nullable columns are
`Option`, timestamps are abstract `Nat` instants, `estimated_delivery` is a
parsed timestamp. -/
structure ShipmentRecord where
  tracking_number : String
  carrier : Option String
  description : Option String
  origin : Option String
  destination : Option String
  status : Option String
  estimated_delivery : Option Nat
  created_at : Nat
  updated_at : Nat
  user_id : Nat
deriving DecidableEq, Repr

/-- The transient result of `_parse_shipengine_response`: the returned dict
always carries the keys `carrier` and `status` with string values, while
`origin`, `destination` and `estimated_delivery` may be `None`. -/
structure TrackingSnapshot where
  carrier : String
  status : String
  origin : Option String
  destination : Option String
  estimated_delivery : Option String
deriving DecidableEq, Repr

/-- One entry of the `status_changes` list built by `refresh_shipments`
(`tracking_number`, `old_status` — nullable in the store —, `new_status`). -/
structure StatusChange where
  tracking_number : String
  old_status : Option String
  new_status : String
deriving DecidableEq, Repr

/-- A change event handed to `emit_shipment_update`: which shipment it is
about and the classification tag (`manual_refresh`, `status_change_auto`, …). -/
structure ChangeEvent where
  tracking_number : String
  tag : String
deriving DecidableEq, Repr

/-- An `events[i]` entry of a ShipEngine payload, as read by
`_parse_shipengine_response`. -/
structure ApiEvent where
  city_locality : Option String
  state_province : Option String
  country_code : Option String
deriving DecidableEq, Repr

/-- The `ship_to` sub-object of a ShipEngine payload. -/
structure ShipTo where
  city_locality : Option String
  state_province : Option String
  country_code : Option String
deriving DecidableEq, Repr

/-- The fields of a ShipEngine tracking payload that
`_parse_shipengine_response` reads; `none` on an `Option` field models an
absent key (Python `dict.get` falls back to its default). -/
structure ApiResponse where
  carrier_code : Option String
  status_code : Option String
  status_description : Option String
  events : List ApiEvent
  ship_to : Option ShipTo
  estimated_delivery_date : Option String
deriving DecidableEq, Repr

/-- Outcome of the HTTP GET in `track_shipment`: a 2xx response whose body
parses as JSON (`ok`, with `none` for a null/empty payload), a 2xx response
whose body is not JSON (`response.json()` raises), a non-2xx status
(`raise_for_status`, covering 401 from a missing/invalid API key), a timeout,
or a lower-level network error. -/
inductive HttpOutcome where
  | ok (body : Option ApiResponse)
  | badJson
  | httpError (code : Nat)
  | timeout
  | connectionError
deriving DecidableEq, Repr

/-- An `HttpOutcome` that does not deliver a payload. -/
def outcomeIsFailure : HttpOutcome → Bool
  | .ok (some _) => false
  | _ => true

/-- Method `ShipEngineAPI._detect_carrier` (`app.py` lines 245-269): fixed
lexical patterns tried in order FedEx, UPS, USPS, DHL; `none` when nothing
matches. -/
def detect_carrier (tracking_number : String) : Option String :=
  let t := pyStrip (pyUpper tracking_number)
  let n := t.data.length
  if (n == 12 && pyIsDigit t) || ((n == 14 || n == 20) && pyIsDigit t) then
    some "fedex"
  else if pyStartsWith t "1Z" && n == 18 then
    some "ups"
  else if ((n == 20 || n == 22) && pyIsDigit t)
      || (pyStartsWith t "9400" || pyStartsWith t "9205" || pyStartsWith t "9405") then
    some "stamps_com"
  else if n == 10 && pyIsDigit t then
    some "dhl_express"
  else
    none

/-- The carrier code `track_shipment` sends: the code given by the caller when
present, otherwise the auto-detected one (`app.py` lines 207-218); the request
is issued either way, with the `carrier_code` parameter present exactly when
this is `some`. -/
def effectiveCarrier (tracking_number : String) (carrier_code : Option String) :
    Option String :=
  match carrier_code with
  | some c => some c
  | none => detect_carrier tracking_number

/-- How the `try/except` of `track_shipment` folds an HTTP outcome: HTTP
errors, timeouts and network errors are caught and become `None`
(`.ok none` outer layer), while a JSON decoding failure propagates as an
exception (`.error`). -/
def handleOutcome : HttpOutcome → Except String (Option (Option ApiResponse))
  | .ok body => .ok (some body)
  | .badJson => .error "invalid json payload"
  | .httpError _ => .ok none
  | .timeout => .ok none
  | .connectionError => .ok none

/-- Method `ShipEngineAPI.track_shipment` (`app.py` lines 199-243): resolve
the carrier code, issue the request, and fold the outcome per `handleOutcome`.
The outer `Option` is the Python `None` return, the inner one a null JSON
body. -/
def track_shipment (http : String → Option String → HttpOutcome)
    (tracking_number : String) (carrier_code : Option String) :
    Except String (Option (Option ApiResponse)) :=
  handleOutcome (http tracking_number (effectiveCarrier tracking_number carrier_code))

/-- Place-string assembly in `_parse_shipengine_response`:
an f-string joining city, state and country with comma separators, then a
strip of commas and spaces from both ends. -/
def formatPlace (city state country : String) : String :=
  pyStripCommaSpace (city ++ ", " ++ state ++ ", " ++ country)

/-- Method `ShipEngineAPI._parse_shipengine_response` (`app.py` lines 146-197):
`none` for a falsy payload; otherwise a snapshot whose `carrier` and `status`
are always strings (with `"Unknown"`/`""` fallbacks), whose `origin` comes
from the first event and whose `destination` from `ship_to` (both only
when the events list is nonempty and the city is nonempty), and whose
`estimated_delivery` is the raw `estimated_delivery_date` value. -/
def parse_shipengine_response : Option ApiResponse → Option TrackingSnapshot
  | none => none
  | some resp =>
    let carrier := resp.carrier_code.getD "Unknown"
    let status_description := resp.status_description.getD "Unknown"
    let status :=
      if status_description == "Unknown" then resp.status_code.getD ""
      else status_description
    let od : Option String × Option String :=
      match resp.events with
      | [] => (none, none)
      | e :: _ =>
        let origin_addr := e.city_locality.getD ""
        let origin :=
          if origin_addr == "" then none
          else some (formatPlace origin_addr (e.state_province.getD "")
              (e.country_code.getD ""))
        let destination :=
          match resp.ship_to with
          | none => none
          | some st =>
            let dest_city := st.city_locality.getD ""
            if dest_city == "" then none
            else some (formatPlace dest_city (st.state_province.getD "")
                (st.country_code.getD ""))
        (origin, destination)
    some { carrier := carrier, status := status, origin := od.1,
           destination := od.2, estimated_delivery := resp.estimated_delivery_date }

/-- Method `ShipEngineAPI.get_tracking_info` (`app.py` lines 271-298): call
`track_shipment` without a caller-supplied carrier code, parse its payload;
the enclosing `except Exception` turns every propagated exception into
`None`, so the function is total and returns `none` on every failure. -/
def get_tracking_info (http : String → Option String → HttpOutcome)
    (tracking_number : String) : Option TrackingSnapshot :=
  match track_shipment http tracking_number none with
  | .error _ => none
  | .ok none => none
  | .ok (some body) => parse_shipengine_response body

/-- The estimated-delivery update block shared by `refresh_shipments`,
`track_shipment_endpoint` and the monitor loop:
`if tracking_info.get("estimated_delivery"):` (so `None` and `""` are both
skipped), then `datetime.fromisoformat` of `s.replace("Z", "+00:00")` inside a
`try/except` that leaves the previous value on a parse failure. -/
def updateEstimatedDelivery (parse : String → Option Nat)
    (old : Option Nat) : Option String → Option Nat
  | none => old
  | some s =>
    if s.data.isEmpty then old
    else
      match parse (replaceZ s) with
      | some d => some d
      | none => old

/-- The per-record field-assignment block shared by the three reconciliation
paths (`app.py` lines 719-733, 654-667 and 971-984): `status`, `carrier`,
`origin` and `destination` are assigned from the snapshot dict via
`tracking_info.get(key, stored)` — and since the parser always supplies those
keys, the stored fallback is never used and the snapshot value (even `None`
for `origin`/`destination`) lands; `estimated_delivery` is guarded as in
`updateEstimatedDelivery`; `updated_at` is set to the current time. -/
def updateFromSnapshot (parse : String → Option Nat) (now : Nat)
    (r : ShipmentRecord) (t : TrackingSnapshot) : ShipmentRecord :=
  { r with
    status := some t.status
    carrier := some t.carrier
    origin := t.origin
    destination := t.destination
    estimated_delivery :=
      updateEstimatedDelivery parse r.estimated_delivery t.estimated_delivery
    updated_at := now }

/-- The terminal check of `refresh_shipments` (`app.py` line 709):
`shipment.status` is truthy and its lowercasing is in `["delivered", "exception"]`. -/
def isTerminal : Option String → Bool
  | none => false
  | some s => ["delivered", "exception"].contains (pyLower s)

/-- One iteration of the `refresh_shipments` loop over one shipment, given the
answer `info` of the tracking client for its tracking number: a terminal shipment
is skipped; an absent snapshot leaves the record untouched and uncounted;
otherwise the record is updated, counted, and a `StatusChange` is recorded
exactly when the fetched status differs from the stored one. -/
def refreshOne (parse : String → Option Nat) (now : Nat)
    (info : Option TrackingSnapshot) (r : ShipmentRecord) :
    ShipmentRecord × Bool × Option StatusChange :=
  if isTerminal r.status then (r, false, none)
  else
    match info with
    | none => (r, false, none)
    | some t =>
      (updateFromSnapshot parse now r t, true,
        if some t.status = r.status then none
        else some ⟨r.tracking_number, r.status, t.status⟩)

/-- The summary object returned by `refresh_shipments` on success. -/
structure RefreshSummary where
  updated_count : Nat
  status_changes : List StatusChange
  total_shipments : Nat
deriving DecidableEq, Repr

/-- The body of the `refresh_shipments` loop over all shipments of one user
(`app.py` lines 701-763): per-record processing via `refreshOne`, the summary
(`updated_count`, `status_changes`, `total_shipments`), and one
`manual_refresh` event per status change, in loop order. -/
def refresh_shipments (parse : String → Option Nat) (now : Nat)
    (fetch : String → Option TrackingSnapshot)
    (shipments : List ShipmentRecord) :
    List ShipmentRecord × RefreshSummary × List ChangeEvent :=
  let results := shipments.map fun r => refreshOne parse now (fetch r.tracking_number) r
  let changes := results.filterMap fun p => p.2.2
  (results.map fun p => p.1,
    { updated_count := (results.filter fun p => p.2.1).length,
      status_changes := changes,
      total_shipments := shipments.length },
    changes.map fun c => ⟨c.tracking_number, "manual_refresh"⟩)

/-- Response of the refresh endpoint: the 200 summary or the 500 error. -/
inductive RefreshResult where
  | ok (summary : RefreshSummary)
  | serverError
deriving DecidableEq, Repr

/-- The `/api/refresh-shipments` endpoint: the loop stages all writes on the
session, then one `db.session.commit()` persists them atomically; `commitOk`
says whether that commit succeeds. On failure the `except` branch runs
`db.session.rollback()` — the store keeps its pre-batch contents — and a 500
error is returned. (Events were already emitted during the loop.) -/
def refreshEndpoint (parse : String → Option Nat) (now : Nat)
    (fetch : String → Option TrackingSnapshot)
    (shipments : List ShipmentRecord) (commitOk : Bool) :
    List ShipmentRecord × List ChangeEvent × RefreshResult :=
  let (newStore, summary, events) := refresh_shipments parse now fetch shipments
  if commitOk then (newStore, events, .ok summary)
  else (shipments, events, .serverError)

/-- The literal status list of the monitor query (`app.py` line 951),
duplicate entry included. -/
def monitorTerminalLiterals : List String :=
  ["Delivered", "delivered", "DELIVERED", "Delivered", "Exception"]

/-- The `active_shipments` selection predicate of the monitor loop
(`app.py` lines 948-953): status is null, or not in the literal list. -/
def monitorSelected (r : ShipmentRecord) : Bool :=
  match r.status with
  | none => true
  | some s => !(monitorTerminalLiterals.contains s)

/-- The shipments one monitor cycle polls the carrier for: exactly the
selected ones. -/
def activeShipments (shipments : List ShipmentRecord) : List ShipmentRecord :=
  shipments.filter monitorSelected

/-- Per-shipment body of the monitor loop (`app.py` lines 957-997), given the
answer of the tracking client: an absent snapshot skips the record; when the
fetched status equals the stored one nothing is written and no event is
emitted; otherwise all fields are updated, committed, and a
`status_change_auto` event is emitted. -/
def monitorOne (parse : String → Option Nat) (now : Nat)
    (info : Option TrackingSnapshot) (r : ShipmentRecord) :
    ShipmentRecord × List ChangeEvent :=
  match info with
  | none => (r, [])
  | some t =>
    if some t.status = r.status then (r, [])
    else (updateFromSnapshot parse now r t, [⟨r.tracking_number, "status_change_auto"⟩])

/-- Fate of one shipment in a monitor cycle: polled and processed when
selected, untouched otherwise. -/
def monitorStep (parse : String → Option Nat) (now : Nat)
    (fetch : String → Option TrackingSnapshot) (r : ShipmentRecord) :
    ShipmentRecord × List ChangeEvent :=
  if monitorSelected r then monitorOne parse now (fetch r.tracking_number) r
  else (r, [])

/-- One full background reconciliation cycle (the body of the `while True`
loop in `start_shipment_monitoring`): process every shipment sequentially,
returning the resulting store and the emitted events in order. -/
def monitorCycle (parse : String → Option Nat) (now : Nat)
    (fetch : String → Option TrackingSnapshot) :
    List ShipmentRecord → List ShipmentRecord × List ChangeEvent
  | [] => ([], [])
  | r :: rest =>
    ((monitorStep parse now fetch r).1 :: (monitorCycle parse now fetch rest).1,
      (monitorStep parse now fetch r).2 ++ (monitorCycle parse now fetch rest).2)

/-- Sample records and snapshots used to instantiate the theorems below on
concrete inputs. `sampleInTransit` is a shipment T1 currently "In Transit"
with known origin, destination and estimated delivery. -/
def sampleInTransit : ShipmentRecord :=
  ⟨"T1", some "usps", none, some "Chicago", some "New York", some "In Transit",
    some 5, 0, 0, 7⟩

/-- Sample shipment T2 already "Delivered" (terminal for the manual refresh). -/
def sampleDelivered : ShipmentRecord :=
  ⟨"T2", some "ups", none, none, none, some "Delivered", none, 0, 0, 7⟩

/-- Sample shipment whose status is the lowercase literal "exception". -/
def sampleException : ShipmentRecord :=
  ⟨"T3", none, none, none, none, some "exception", none, 0, 0, 7⟩

/-- Sample snapshot reporting "Delivered" with every optional field absent. -/
def sampleSnapshot : TrackingSnapshot := ⟨"ups", "Delivered", none, none, none⟩

/-- Sample snapshot whose status equals the stored status of `sampleInTransit`. -/
def sampleSameStatusSnapshot : TrackingSnapshot :=
  ⟨"usps", "In Transit", some "Chicago", some "New York", none⟩

/-- Sample snapshot carrying a malformed estimated-delivery string. -/
def sampleBadDateSnapshot : TrackingSnapshot :=
  ⟨"ups", "In Transit", none, none, some "not-a-date"⟩

/-- A `datetime.fromisoformat` model that rejects every string. -/
def noParse : String → Option Nat := fun _ => none

/-- Tracking client of the C5 scenario: a snapshot for T1, absent for all
other tracking numbers. -/
def sampleFetch : String → Option TrackingSnapshot :=
  fun tn => if tn == "T1" then some sampleSnapshot else none

/-- Tracking client that always answers with `sampleSameStatusSnapshot`. -/
def sameStatusFetch : String → Option TrackingSnapshot :=
  fun _ => some sampleSameStatusSnapshot

/-- C1 fails on the code: in a manual-refresh update from a snapshot whose
`origin` is absent, the stored origin is not left unchanged — it is cleared.
The parser always puts the `origin` key in the snapshot dict (possibly with
value `None`), so `tracking_info.get("origin", shipment.origin)` returns the
absent value instead of the stored fallback. -/
theorem C1_origin_clobbered_counterexample :
    sampleSnapshot.origin = none ∧
    sampleInTransit.origin = some "Chicago" ∧
    ¬ ((refreshOne noParse 9 (some sampleSnapshot) sampleInTransit).1.origin
        = some "Chicago") := by
  decide

/-- C1 amended: in every reconciliation update from a snapshot, an absent
`estimated_delivery` leaves the stored estimated delivery unchanged
(merge-on-present holds for that field only), while `origin` and
`destination` are overwritten with the snapshot value even when absent, and
`carrier` and `status` — always present in a parsed snapshot — always
overwrite the stored values. -/
theorem C1_update_field_semantics (parse : String → Option Nat) (now : Nat)
    (r : ShipmentRecord) (t : TrackingSnapshot)
    (hed : t.estimated_delivery = none) :
    (updateFromSnapshot parse now r t).estimated_delivery = r.estimated_delivery ∧
    (updateFromSnapshot parse now r t).origin = t.origin ∧
    (updateFromSnapshot parse now r t).destination = t.destination ∧
    (updateFromSnapshot parse now r t).carrier = some t.carrier ∧
    (updateFromSnapshot parse now r t).status = some t.status := by
  simp [updateFromSnapshot, updateEstimatedDelivery, hed]

/-- Witness for `C1_update_field_semantics` at a concrete input. -/
theorem C1_update_field_semantics_witness :
    (updateFromSnapshot noParse 9 sampleInTransit sampleSnapshot).estimated_delivery
      = sampleInTransit.estimated_delivery :=
  (C1_update_field_semantics noParse 9 sampleInTransit sampleSnapshot rfl).1

/-- C2 fails on the code: the monitor query excludes only the literal
statuses "Delivered", "delivered", "DELIVERED" and "Exception"; the record
`sampleException`, whose status "exception" is in the terminal set of the
claim under case-insensitive comparison, is nevertheless selected for
polling. -/
theorem C2_exception_selected_counterexample :
    pyLower "exception" = "exception" ∧
    monitorSelected sampleException = true ∧
    sampleException ∈ activeShipments [sampleException] := by
  decide

/-- C2 amended: the background Reconciler never selects a record whose stored
status is exactly one of the literals "Delivered", "delivered", "DELIVERED"
or "Exception"; all other statuses (including other casings of the terminal
names, such as "exception") are selected. -/
theorem C2_terminal_literal_never_selected (r : ShipmentRecord)
    (st : List ShipmentRecord)
    (h : r.status = some "Delivered" ∨ r.status = some "delivered" ∨
      r.status = some "DELIVERED" ∨ r.status = some "Exception") :
    monitorSelected r = false ∧ r ∉ activeShipments st := by
  have hsel : monitorSelected r = false := by
    rcases h with h | h | h | h <;>
      simp +decide [monitorSelected, monitorTerminalLiterals, h]
  refine ⟨hsel, ?_⟩
  intro hmem
  rw [activeShipments, List.mem_filter] at hmem
  rw [hsel] at hmem
  exact Bool.false_ne_true hmem.2

/-- Witness for `C2_terminal_literal_never_selected` at a concrete input. -/
theorem C2_terminal_literal_never_selected_witness :
    monitorSelected sampleDelivered = false ∧
    sampleDelivered ∉ activeShipments [sampleDelivered] :=
  C2_terminal_literal_never_selected sampleDelivered [sampleDelivered]
    (Or.inl (by decide))

/-- C3 confirmed: in a background pass over one record for which the client
returns a snapshot, an event is emitted iff the fetched status differs from
the stored one under exact string comparison, and when they are equal the
record is returned untouched with no event. -/
theorem C3_event_iff_status_differs (parse : String → Option Nat) (now : Nat)
    (t : TrackingSnapshot) (r : ShipmentRecord) :
    ((monitorOne parse now (some t) r).2 ≠ [] ↔ some t.status ≠ r.status) ∧
    (some t.status = r.status → monitorOne parse now (some t) r = (r, [])) := by
  constructor
  · by_cases h : some t.status = r.status <;> simp [monitorOne, h]
  · intro h
    simp [monitorOne, h]

/-- Witness for `C3_event_iff_status_differs` at a concrete input. -/
theorem C3_event_iff_status_differs_witness :
    (monitorOne noParse 9 (some sampleSnapshot) sampleInTransit).2 ≠ [] :=
  (C3_event_iff_status_differs noParse 9 sampleSnapshot sampleInTransit).1.mpr
    (by decide)

/-- C4 confirmed: when the single batch commit of the manual refresh fails,
the rollback restores the pre-batch store — no shipment retains any pending
update from the batch — and the endpoint reports a server error to the
caller. -/
theorem C4_batch_rollback (parse : String → Option Nat) (now : Nat)
    (fetch : String → Option TrackingSnapshot)
    (shipments : List ShipmentRecord) :
    (refreshEndpoint parse now fetch shipments false).1 = shipments ∧
    (refreshEndpoint parse now fetch shipments false).2.2 = .serverError := by
  simp [refreshEndpoint]

/-- C5 confirmed: the manual refresh over the two-shipment scenario of the
spec (T1 "In Transit" reported "Delivered", T2 "Delivered" with the client
reporting nothing) returns `updated_count = 1`, exactly the one status change
for T1, `total_shipments = 2`, and emits exactly one event, for T1 — none for
T2. -/
theorem C5_manual_refresh_scenario :
    (refresh_shipments noParse 9 sampleFetch [sampleInTransit, sampleDelivered]).2.1
      = ⟨1, [⟨"T1", some "In Transit", "Delivered"⟩], 2⟩ ∧
    (refresh_shipments noParse 9 sampleFetch [sampleInTransit, sampleDelivered]).2.2
      = [⟨"T1", "manual_refresh"⟩] := by
  decide

/-- Processing a shipment that a previous monitor step has just processed
against the same tracking client changes nothing and emits nothing: after the
first step the stored status already agrees with the snapshot (or the record
was never touched), so the inequality guard blocks every write. -/
theorem monitorStep_fixpoint (parse : String → Option Nat) (n1 n2 : Nat)
    (fetch : String → Option TrackingSnapshot) (r : ShipmentRecord) :
    monitorStep parse n2 fetch (monitorStep parse n1 fetch r).1
      = ((monitorStep parse n1 fetch r).1, []) := by
  cases hs : monitorSelected r with
  | false => simp [monitorStep, hs]
  | true =>
    simp only [monitorStep, hs, if_true]
    cases hf : fetch r.tracking_number with
    | none => simp [monitorOne, hs, hf]
    | some t =>
      by_cases he : some t.status = r.status
      · simp [monitorOne, he, hs, hf]
      · simp only [monitorOne, he, if_neg he]
        have htn : (updateFromSnapshot parse n1 r t).tracking_number
            = r.tracking_number := rfl
        have hst : (updateFromSnapshot parse n1 r t).status = some t.status := rfl
        cases hs2 : monitorSelected (updateFromSnapshot parse n1 r t) with
        | false => simp [hs2]
        | true => simp [hs2, monitorOne, htn, hf, hst]

/-- C6 confirmed: a second background cycle run immediately after a first one
against an unchanged tracking client leaves the store exactly as the first
cycle left it — in particular no `updated_at` is written — and emits no
event. -/
theorem C6_second_cycle_idempotent (parse : String → Option Nat)
    (n1 n2 : Nat) (fetch : String → Option TrackingSnapshot)
    (shipments : List ShipmentRecord) :
    monitorCycle parse n2 fetch (monitorCycle parse n1 fetch shipments).1
      = ((monitorCycle parse n1 fetch shipments).1, []) := by
  induction shipments with
  | nil => rfl
  | cons r rest ih =>
    simp [monitorCycle, monitorStep_fixpoint parse n1 n2 fetch r, ih]

/-- C8 confirmed: a malformed estimated-delivery string (one the date parser
rejects, such as "not-a-date") leaves the stored estimated delivery intact
while the rest of the update still lands (status overwritten, `updated_at`
set). The update operation is a total function: the `try/except` around
`datetime.fromisoformat` is modelled by the `none` branch, so no error
reaches the caller. -/
theorem C8_malformed_delivery_ignored (parse : String → Option Nat) (now : Nat)
    (r : ShipmentRecord) (t : TrackingSnapshot) (s : String)
    (hs : t.estimated_delivery = some s)
    (hne : s.data.isEmpty = false)
    (hp : parse (replaceZ s) = none) :
    (updateFromSnapshot parse now r t).estimated_delivery = r.estimated_delivery ∧
    (updateFromSnapshot parse now r t).status = some t.status ∧
    (updateFromSnapshot parse now r t).updated_at = now := by
  simp [updateFromSnapshot, updateEstimatedDelivery, hs, hne, hp]

/-- Witness for `C8_malformed_delivery_ignored` at a concrete input. -/
theorem C8_malformed_delivery_ignored_witness :
    (updateFromSnapshot noParse 9 sampleInTransit sampleBadDateSnapshot).estimated_delivery
      = sampleInTransit.estimated_delivery :=
  (C8_malformed_delivery_ignored noParse 9 sampleInTransit sampleBadDateSnapshot
    "not-a-date" rfl rfl rfl).1

/-- C9 confirmed: `get_tracking_info` is a total function of the request
outcome (the outer `except Exception` catches everything the inner calls can
raise), and for every outcome that does not deliver a payload — HTTP error
(including 401 for a missing or invalid credential), timeout, network error,
malformed JSON body, or a null payload — it returns `none`. -/
theorem C9_get_tracking_info_absent_on_failure
    (http : String → Option String → HttpOutcome) (tn : String)
    (h : outcomeIsFailure (http tn (effectiveCarrier tn none)) = true) :
    get_tracking_info http tn = none := by
  unfold get_tracking_info track_shipment
  cases hout : http tn (effectiveCarrier tn none) with
  | ok body =>
    rw [hout] at h
    cases body with
    | none => simp [handleOutcome, parse_shipengine_response]
    | some b => simp [outcomeIsFailure] at h
  | badJson => simp [handleOutcome]
  | httpError code => simp [handleOutcome]
  | timeout => simp [handleOutcome]
  | connectionError => simp [handleOutcome]

/-- Witness for `C9_get_tracking_info_absent_on_failure` at a concrete
input (a tracking client whose every request times out). -/
theorem C9_get_tracking_info_absent_on_failure_witness :
    get_tracking_info (fun _ _ => .timeout) "ABC" = none :=
  C9_get_tracking_info_absent_on_failure (fun _ _ => .timeout) "ABC" (by decide)

/-- C10 confirmed: in the manual refresh, every non-terminal shipment for
which the client returns a snapshot is counted in `updated_count` and has its
`updated_at` overwritten with the current time, even when the fetched status
equals the stored one (in which case no status change is recorded);
consequently, `updated_count` can exceed the length of `status_changes`, as
the concrete one-shipment refresh in the last conjunct shows. -/
theorem C10_updated_count_overcounts (parse : String → Option Nat) (now : Nat)
    (fetch : String → Option TrackingSnapshot) (r : ShipmentRecord)
    (t : TrackingSnapshot)
    (hterm : isTerminal r.status = false)
    (hf : fetch r.tracking_number = some t) :
    (refreshOne parse now (fetch r.tracking_number) r).2.1 = true ∧
    (refreshOne parse now (fetch r.tracking_number) r).1.updated_at = now ∧
    (some t.status = r.status →
      (refreshOne parse now (fetch r.tracking_number) r).2.2 = none) ∧
    (refresh_shipments noParse 9 sameStatusFetch [sampleInTransit]).2.1.updated_count
      > (refresh_shipments noParse 9 sameStatusFetch
          [sampleInTransit]).2.1.status_changes.length := by
  refine ⟨?_, ?_, ?_, by decide⟩
  · simp [refreshOne, hterm, hf]
  · by_cases he : some t.status = r.status <;>
      simp [refreshOne, hterm, hf, he, updateFromSnapshot]
  · intro he
    simp [refreshOne, hterm, hf, he]

/-- Witness for `C10_updated_count_overcounts` at a concrete input. -/
theorem C10_updated_count_overcounts_witness :
    (refreshOne noParse 9 (sameStatusFetch sampleInTransit.tracking_number)
      sampleInTransit).2.1 = true :=
  (C10_updated_count_overcounts noParse 9 sameStatusFetch sampleInTransit
    sampleSameStatusSnapshot (by decide) (by decide)).1

/-- A character list beginning with one of the literal prefixes 9400, 9205 or
9405 begins with the digit 9, hence does not begin with the UPS marker 1Z. -/
theorem nineHead_not_oneZ (l : List Char)
    (h : (List.isPrefixOf ['9', '4', '0', '0'] l
        || List.isPrefixOf ['9', '2', '0', '5'] l
        || List.isPrefixOf ['9', '4', '0', '5'] l) = true) :
    List.isPrefixOf ['1', 'Z'] l = false := by
  rcases l with _ | ⟨c, cs⟩
  · simp [List.isPrefixOf] at h
  · simp only [List.isPrefixOf, Bool.or_eq_true, Bool.and_eq_true, beq_iff_eq] at h
    rcases h with (⟨hc, -⟩ | ⟨hc, -⟩) | ⟨hc, -⟩ <;> subst hc <;> rfl

/-- A character list beginning with 1Z contains the non-digit Z, hence fails
the all-digits test of `pyIsDigit`. -/
theorem oneZ_not_all_digits (l : List Char)
    (h : List.isPrefixOf ['1', 'Z'] l = true) :
    (!l.isEmpty && l.all Char.isDigit) = false := by
  rcases l with _ | ⟨c, cs⟩
  · simp [List.isPrefixOf] at h
  · rcases cs with _ | ⟨d, ds⟩
    · simp [List.isPrefixOf] at h
    · simp only [List.isPrefixOf, Bool.and_eq_true, beq_iff_eq] at h
      obtain ⟨hc, hd, -⟩ := h
      subst hc
      subst hd
      rfl

/-- String-level version of `nineHead_not_oneZ`. -/
theorem pyStartsNine_not_oneZ (t : String)
    (h : (pyStartsWith t "9400" || pyStartsWith t "9205"
        || pyStartsWith t "9405") = true) :
    pyStartsWith t "1Z" = false := by
  obtain ⟨l⟩ := t
  have e0 : pyStartsWith (String.mk l) "1Z" = List.isPrefixOf ['1', 'Z'] l := rfl
  have e1 : pyStartsWith (String.mk l) "9400"
      = List.isPrefixOf ['9', '4', '0', '0'] l := rfl
  have e2 : pyStartsWith (String.mk l) "9205"
      = List.isPrefixOf ['9', '2', '0', '5'] l := rfl
  have e3 : pyStartsWith (String.mk l) "9405"
      = List.isPrefixOf ['9', '4', '0', '5'] l := rfl
  rw [e0]
  rw [e1, e2, e3] at h
  exact nineHead_not_oneZ l h

/-- String-level version of `oneZ_not_all_digits`. -/
theorem pyStartsOneZ_not_digit (t : String) (h : pyStartsWith t "1Z" = true) :
    pyIsDigit t = false := by
  obtain ⟨l⟩ := t
  have e0 : pyStartsWith (String.mk l) "1Z" = List.isPrefixOf ['1', 'Z'] l := rfl
  have e1 : pyIsDigit (String.mk l) = (!l.isEmpty && l.all Char.isDigit) := rfl
  rw [e1]
  rw [e0] at h
  exact oneZ_not_all_digits l h

/-- C7 fails on the code: a 20-digit tracking number with the literal prefix
9400 is classified as FedEx, not as the USPS carrier code (`stamps_com`),
because the digit-count FedEx patterns are tried before the USPS prefixes. -/
theorem C7_usps_prefix_counterexample :
    pyStartsWith (pyStrip (pyUpper "94001234567890123456")) "9400" = true ∧
    detect_carrier "94001234567890123456" = some "fedex" ∧
    some "fedex" ≠ (some "stamps_com" : Option String) := by
  decide

/-- C7 amended: after upper-casing and trimming, a number with literal prefix
9400, 9205 or 9405 is classified as the USPS carrier code unless it is
digit-only of length 12, 14 or 20 (then the earlier FedEx rule fires); every
18-character number starting with 1Z is classified UPS; and when no pattern
matches, no carrier hint is produced and the tracking request is still issued,
without a carrier code. -/
theorem C7_detect_carrier_amended (tn t : String)
    (ht : t = pyStrip (pyUpper tn)) :
    ((pyStartsWith t "9400" || pyStartsWith t "9205"
        || pyStartsWith t "9405") = true →
      detect_carrier tn =
        (if pyIsDigit t && (t.length == 12
            || (t.length == 14 || t.length == 20))
         then some "fedex" else some "stamps_com")) ∧
    (pyStartsWith t "1Z" = true → t.length = 18 →
      detect_carrier tn = some "ups") ∧
    (detect_carrier tn = none →
      effectiveCarrier tn none = none ∧
      ∀ http, track_shipment http tn none = handleOutcome (http tn none)) := by
  refine ⟨?_, ?_, ?_⟩
  · intro h9
    have h1Z := pyStartsNine_not_oneZ t h9
    simp only [detect_carrier, ← ht]
    cases hd : pyIsDigit t with
    | false => simp [hd, h1Z, h9]
    | true =>
      cases hl : (t.length == 12
          || (t.length == 14 || t.length == 20)) with
      | true => simp [hd, hl, h1Z, h9]
      | false => simp [hd, hl, h1Z, h9]
  · intro h1 hlen
    have hd := pyStartsOneZ_not_digit t h1
    simp only [detect_carrier, ← ht]
    simp [hd, h1, hlen]
  · intro hnone
    refine ⟨?_, fun http => ?_⟩
    · simp [effectiveCarrier, hnone]
    · simp [track_shipment, effectiveCarrier, hnone]

/-- Witness for `C7_detect_carrier_amended` at a concrete input. -/
theorem C7_detect_carrier_amended_witness :
    detect_carrier "9405123" =
      (if pyIsDigit "9405123" && ("9405123".length == 12
          || ("9405123".length == 14 || "9405123".length == 20))
       then some "fedex" else some "stamps_com") :=
  (C7_detect_carrier_amended "9405123" "9405123" (by decide)).1 (by decide)

end WebchatAI
